import Mathlib

/-!
Verification of the vibe_design scene-graph geometry engine
(Transform Matrix, Hierarchy Manager, Layout Engine, Snap Engine).

Numbers are modelled by exact rationals (`ℚ`) except where trigonometry is
involved (descendant rotation cascades), which is modelled over `ℝ`.
-/

namespace VibeDesign

/-- 2D transform matrix `[a, b, c, d, tx, ty]` for
`| a c tx |`
`| b d ty |`
`| 0 0 1  |`. -/
structure Matrix2D where
  a : ℚ
  b : ℚ
  c : ℚ
  d : ℚ
  tx : ℚ
  ty : ℚ
  deriving DecidableEq

/-- A point in 2D space. -/
structure Point2D where
  x : ℚ
  y : ℚ
  deriving DecidableEq

/-- `identityMatrix()` returns `[1, 0, 0, 1, 0, 0]`. -/
def identityMatrix : Matrix2D := ⟨1, 0, 0, 1, 0, 0⟩

/-- `invertMatrix(m)`: determinant `m[0]*m[3] - m[1]*m[2]`; if `|det| < 1e-10`
the matrix is treated as non-invertible and the identity is returned. -/
def invertMatrix (m : Matrix2D) : Matrix2D :=
  let det := m.a * m.d - m.b * m.c
  if |det| < 1e-10 then
    identityMatrix
  else
    let invDet := 1 / det
    ⟨m.d * invDet,
     -m.b * invDet,
     -m.c * invDet,
     m.a * invDet,
     (m.c * m.ty - m.d * m.tx) * invDet,
     (m.b * m.tx - m.a * m.ty) * invDet⟩

/-- `transformPoint(point, matrix)`. -/
def transformPoint (point : Point2D) (matrix : Matrix2D) : Point2D :=
  ⟨matrix.a * point.x + matrix.c * point.y + matrix.tx,
   matrix.b * point.x + matrix.d * point.y + matrix.ty⟩

/-- `worldToLocal(worldPoint, worldMatrix)` transforms by the inverse matrix. -/
def worldToLocal (worldPoint : Point2D) (worldMatrix : Matrix2D) : Point2D :=
  let inverseMatrix := invertMatrix worldMatrix
  transformPoint worldPoint inverseMatrix

/-- `localToWorld(localPoint, worldMatrix)` transforms by the matrix. -/
def localToWorld (localPoint : Point2D) (worldMatrix : Matrix2D) : Point2D :=
  transformPoint localPoint worldMatrix

/-- `ShapeType`: `'rect' | 'circle' | 'frame'`. -/
inductive ShapeType
  | rect
  | circle
  | frame
  deriving DecidableEq

/-- `LayoutMode`: `'free' | 'flex' | 'grid'`. -/
inductive LayoutMode
  | free
  | flex
  | grid
  deriving DecidableEq

/-- `FlexDirection`: `'row' | 'column' | 'row-reverse' | 'column-reverse'`. -/
inductive FlexDirection
  | row
  | column
  | rowReverse
  | columnReverse
  deriving DecidableEq

/-- `FlexJustify`: the six `justifyContent` keywords. -/
inductive FlexJustify
  | flexStart
  | flexEnd
  | center
  | spaceBetween
  | spaceAround
  | spaceEvenly
  deriving DecidableEq

/-- `FlexAlign`: the five `alignItems` keywords. -/
inductive FlexAlign
  | flexStart
  | flexEnd
  | center
  | stretch
  | baseline
  deriving DecidableEq

/-- `FlexWrap`: `'nowrap' | 'wrap' | 'wrap-reverse'` (unused by the layout code). -/
inductive FlexWrap
  | nowrap
  | wrapLines
  | wrapReverse
  deriving DecidableEq

/-- `autoFlow` of `GridLayoutSettings`: `'row' | 'column' | 'dense'`. -/
inductive GridAutoFlow
  | row
  | column
  | dense
  deriving DecidableEq

/-- The `padding` record `{top, right, bottom, left}`. -/
structure Padding (α : Type) where
  top : α
  right : α
  bottom : α
  left : α
  deriving DecidableEq

/-- `FlexLayoutSettings`. -/
structure FlexLayoutSettings (α : Type) where
  direction : FlexDirection
  justifyContent : FlexJustify
  alignItems : FlexAlign
  wrap : FlexWrap
  gap : α
  padding : Padding α
  deriving DecidableEq

/-- `GridLayoutSettings`; `columns`/`rows` are integral counts. -/
structure GridLayoutSettings (α : Type) where
  columns : ℕ
  rows : ℕ
  columnGap : α
  rowGap : α
  autoFlow : GridAutoFlow
  padding : Padding α
  deriving DecidableEq

/-- `LayoutSettings {mode, flex?, grid?}`. -/
structure LayoutSettings (α : Type) where
  mode : LayoutMode
  flex : Option (FlexLayoutSettings α)
  grid : Option (GridLayoutSettings α)
  deriving DecidableEq

/-- `Shape`, restricted to the fields the geometry engine reads
(`id, type, x, y, width, height, parentId, children, rotation, layout`);
styling fields (`fill`, `stroke`, `name`, ...) are never read by the
embedded operations and are omitted.  Scalars are `α` (`ℚ` or `ℝ`). -/
structure Shape (α : Type) where
  id : String
  type : ShapeType
  x : α
  y : α
  width : α
  height : α
  parentId : Option String
  children : List String
  rotation : α
  layout : Option (LayoutSettings α)
  deriving DecidableEq

/-- Orientation tag of a `SnapGuide`. -/
inductive GuideOrientation
  | vertical
  | horizontal
  deriving DecidableEq

/-- `SnapGuide {type, position, start, end, sourceShapeId, targetShapeId}`
(the source's `end` field is spelled `stop` because `end` is reserved). -/
structure SnapGuide where
  type : GuideOrientation
  position : ℚ
  start : ℚ
  stop : ℚ
  sourceShapeId : String
  targetShapeId : String
  deriving DecidableEq

/-- `SnapResult {snappedX, snappedY, guides}`. -/
structure SnapResult where
  snappedX : ℚ
  snappedY : ℚ
  guides : List SnapGuide
  deriving DecidableEq

/-- The result record of `snapResize` (also used as its loop state):
`{x, y, width, height, guides}`. -/
structure ResizeResult where
  x : ℚ
  y : ℚ
  width : ℚ
  height : ℚ
  guides : List SnapGuide
  deriving DecidableEq

/-- The `SnapEngine`'s configuration: `threshold` and `enabled`. -/
structure SnapEngine where
  threshold : ℚ
  enabled : Bool
  deriving DecidableEq

/-- `createVerticalGuide(x, source, target)`. -/
def createVerticalGuide (x : ℚ) (source target : Shape ℚ) : SnapGuide :=
  ⟨GuideOrientation.vertical, x,
   min source.y target.y,
   max (source.y + source.height) (target.y + target.height),
   source.id, target.id⟩

/-- `createHorizontalGuide(y, source, target)`. -/
def createHorizontalGuide (y : ℚ) (source target : Shape ℚ) : SnapGuide :=
  ⟨GuideOrientation.horizontal, y,
   min source.x target.x,
   max (source.x + source.width) (target.x + target.width),
   source.id, target.id⟩

/-- The body of `snapShape`'s `for (const target of otherShapes)` loop:
one `else if` chain per axis, comparing against the *original* drag
coordinates (`newX`, `movingRight`, ... are computed once before the loop). -/
def snapShapeStep (engine : SnapEngine) (movingShape : Shape ℚ)
    (newX newY movingRight movingBottom movingCenterX movingCenterY : ℚ)
    (st : SnapResult) (target : Shape ℚ) : SnapResult :=
  if target.id = movingShape.id then st
  else
    let targetRight := target.x + target.width
    let targetBottom := target.y + target.height
    let targetCenterX := target.x + target.width / 2
    let targetCenterY := target.y + target.height / 2
    let st :=
      if |newX - target.x| < engine.threshold then
        { st with snappedX := target.x,
                  guides := st.guides ++ [createVerticalGuide target.x movingShape target] }
      else if |movingRight - targetRight| < engine.threshold then
        { st with snappedX := targetRight - movingShape.width,
                  guides := st.guides ++ [createVerticalGuide targetRight movingShape target] }
      else if |newX - targetRight| < engine.threshold then
        { st with snappedX := targetRight,
                  guides := st.guides ++ [createVerticalGuide targetRight movingShape target] }
      else if |movingRight - target.x| < engine.threshold then
        { st with snappedX := target.x - movingShape.width,
                  guides := st.guides ++ [createVerticalGuide target.x movingShape target] }
      else if |movingCenterX - targetCenterX| < engine.threshold then
        { st with snappedX := targetCenterX - movingShape.width / 2,
                  guides := st.guides ++ [createVerticalGuide targetCenterX movingShape target] }
      else st
    if |newY - target.y| < engine.threshold then
      { st with snappedY := target.y,
                guides := st.guides ++ [createHorizontalGuide target.y movingShape target] }
    else if |movingBottom - targetBottom| < engine.threshold then
      { st with snappedY := targetBottom - movingShape.height,
                guides := st.guides ++ [createHorizontalGuide targetBottom movingShape target] }
    else if |newY - targetBottom| < engine.threshold then
      { st with snappedY := targetBottom,
                guides := st.guides ++ [createHorizontalGuide targetBottom movingShape target] }
    else if |movingBottom - target.y| < engine.threshold then
      { st with snappedY := target.y - movingShape.height,
                guides := st.guides ++ [createHorizontalGuide target.y movingShape target] }
    else if |movingCenterY - targetCenterY| < engine.threshold then
      { st with snappedY := targetCenterY - movingShape.height / 2,
                guides := st.guides ++ [createHorizontalGuide targetCenterY movingShape target] }
    else st

/-- `SnapEngine.snapShape(movingShape, newX, newY, otherShapes, canvasWidth,
canvasHeight)`: returns the input unchanged when disabled, otherwise checks
canvas-center alignment per axis and then snaps against every other shape. -/
def snapShape (engine : SnapEngine) (movingShape : Shape ℚ) (newX newY : ℚ)
    (otherShapes : List (Shape ℚ)) (canvasWidth canvasHeight : ℚ) : SnapResult :=
  if engine.enabled = false then ⟨newX, newY, []⟩
  else
    let movingRight := newX + movingShape.width
    let movingBottom := newY + movingShape.height
    let movingCenterX := newX + movingShape.width / 2
    let movingCenterY := newY + movingShape.height / 2
    let canvasCenterX := canvasWidth / 2
    let canvasCenterY := canvasHeight / 2
    let st : SnapResult := ⟨newX, newY, []⟩
    let st :=
      if |movingCenterX - canvasCenterX| < engine.threshold then
        { st with snappedX := canvasCenterX - movingShape.width / 2,
                  guides := st.guides ++
                    [⟨GuideOrientation.vertical, canvasCenterX, 0, canvasHeight,
                      movingShape.id, "canvas"⟩] }
      else st
    let st :=
      if |movingCenterY - canvasCenterY| < engine.threshold then
        { st with snappedY := canvasCenterY - movingShape.height / 2,
                  guides := st.guides ++
                    [⟨GuideOrientation.horizontal, canvasCenterY, 0, canvasWidth,
                      movingShape.id, "canvas"⟩] }
      else st
    otherShapes.foldl
      (snapShapeStep engine movingShape newX newY movingRight movingBottom
        movingCenterX movingCenterY) st

/-- The body of `snapResize`'s per-target loop: four independent `if` blocks
keyed on the handle string containing `'e'`, `'w'`, `'s'`, `'n'`, each
reading and mutating the running `{x, y, width, height}` state. -/
def snapResizeStep (engine : SnapEngine) (shape : Shape ℚ) (handle : String)
    (st : ResizeResult) (target : Shape ℚ) : ResizeResult :=
  if target.id = shape.id then st
  else
    let targetRight := target.x + target.width
    let targetBottom := target.y + target.height
    let st :=
      if handle.contains 'e' then
        if |st.x + st.width - targetRight| < engine.threshold then
          { st with width := targetRight - st.x,
                    guides := st.guides ++ [createVerticalGuide targetRight shape target] }
        else if |st.x + st.width - target.x| < engine.threshold then
          { st with width := target.x - st.x,
                    guides := st.guides ++ [createVerticalGuide target.x shape target] }
        else st
      else st
    let st :=
      if handle.contains 'w' then
        if |st.x - target.x| < engine.threshold then
          let diff := st.x - target.x
          { st with x := target.x, width := st.width + diff,
                    guides := st.guides ++ [createVerticalGuide target.x shape target] }
        else if |st.x - targetRight| < engine.threshold then
          let diff := st.x - targetRight
          { st with x := targetRight, width := st.width + diff,
                    guides := st.guides ++ [createVerticalGuide targetRight shape target] }
        else st
      else st
    let st :=
      if handle.contains 's' then
        if |st.y + st.height - targetBottom| < engine.threshold then
          { st with height := targetBottom - st.y,
                    guides := st.guides ++ [createHorizontalGuide targetBottom shape target] }
        else if |st.y + st.height - target.y| < engine.threshold then
          { st with height := target.y - st.y,
                    guides := st.guides ++ [createHorizontalGuide target.y shape target] }
        else st
      else st
    if handle.contains 'n' then
      if |st.y - target.y| < engine.threshold then
        let diff := st.y - target.y
        { st with y := target.y, height := st.height + diff,
                  guides := st.guides ++ [createHorizontalGuide target.y shape target] }
      else if |st.y - targetBottom| < engine.threshold then
        let diff := st.y - targetBottom
        { st with y := targetBottom, height := st.height + diff,
                  guides := st.guides ++ [createHorizontalGuide targetBottom shape target] }
      else st
    else st

/-- `SnapEngine.snapResize(shape, handle, newX, newY, newWidth, newHeight,
otherShapes)`: returns the input unchanged when disabled, otherwise snaps the
handle's active edges per target and finally floors width/height at 10. -/
def snapResize (engine : SnapEngine) (shape : Shape ℚ) (handle : String)
    (newX newY newWidth newHeight : ℚ) (otherShapes : List (Shape ℚ)) : ResizeResult :=
  if engine.enabled = false then ⟨newX, newY, newWidth, newHeight, []⟩
  else
    let st := otherShapes.foldl (snapResizeStep engine shape handle)
      ⟨newX, newY, newWidth, newHeight, []⟩
    ⟨st.x, st.y, max 10 st.width, max 10 st.height, st.guides⟩

/-- The 40×40 moving shape of the spec's Scenario C. -/
def scenarioCShape : Shape ℚ :=
  ⟨"moving", ShapeType.rect, 0, 0, 40, 40, none, [], 0, none⟩

/-- `shapes.get(id)` on the `Map<string, Shape>`: the shape map is embedded as
an association list in insertion order, lookup returns the first match. -/
def lookupShape {α : Type} (shapes : List (String × Shape α)) (id : String) :
    Option (Shape α) :=
  (shapes.find? (fun p => p.1 == id)).map (·.2)

/-- One step of `getAncestors`' `while (currentShape?.parentId)` walk; the
fuel argument bounds the walk (the JS loop would diverge on a parent cycle,
which cannot occur in well-formed trees of at most `shapes.length` shapes). -/
def getAncestorsAux {α : Type} (shapes : List (String × Shape α)) :
    ℕ → Shape α → List (Shape α)
  | 0, _ => []
  | fuel + 1, current =>
    match current.parentId with
    | none => []
    | some pid =>
      match lookupShape shapes pid with
      | some parent => parent :: getAncestorsAux shapes fuel parent
      | none => []

/-- `HierarchyManager.getAncestors(shapeId, shapes)`: parent, grandparent,
..., nearest first. -/
def getAncestors {α : Type} (shapeId : String) (shapes : List (String × Shape α)) :
    List (Shape α) :=
  match lookupShape shapes shapeId with
  | none => []
  | some s => getAncestorsAux shapes shapes.length s

/-- The recursive `collectDescendants` closure of
`HierarchyManager.getDescendants`, with fuel bounding the recursion depth
(the JS recursion would diverge on a `children` cycle). -/
def collectDescendants {α : Type} (shapes : List (String × Shape α)) :
    ℕ → String → List (Shape α)
  | 0, _ => []
  | fuel + 1, id =>
    match lookupShape shapes id with
    | none => []
    | some s =>
      s.children.flatMap (fun childId =>
        match lookupShape shapes childId with
        | some child => child :: collectDescendants shapes fuel childId
        | none => [])

/-- `HierarchyManager.getDescendants(shapeId, shapes)`: pre-order traversal
of the `children` lists; empty when the id is missing. -/
def getDescendants {α : Type} (shapeId : String) (shapes : List (String × Shape α)) :
    List (Shape α) :=
  match lookupShape shapes shapeId with
  | none => []
  | some _ => collectDescendants shapes shapes.length shapeId

/-- The world-bounding-box containment test that `canNest`,
`findBestParent` and `findPotentialParent` all inline:
`inner.x >= outer.x && inner.y >= outer.y && inner.x + inner.width <=
outer.x + outer.width && inner.y + inner.height <= outer.y + outer.height`. -/
def fullyContains (outer inner : Shape ℚ) : Bool :=
  decide (inner.x ≥ outer.x) && decide (inner.y ≥ outer.y) &&
    decide (inner.x + inner.width ≤ outer.x + outer.width) &&
    decide (inner.y + inner.height ≤ outer.y + outer.height)

/-- `HierarchyManager.canNest(childId, parentId, shapes)`. -/
def canNest (childId parentId : String) (shapes : List (String × Shape ℚ)) : Bool :=
  if childId = parentId then false
  else
    match lookupShape shapes childId, lookupShape shapes parentId with
    | some child, some parent =>
      if parent.type ≠ ShapeType.frame then false
      else if (getAncestors parentId shapes).any (fun a => a.id == childId) then false
      else fullyContains parent child
    | _, _ => false

/-- `potentialParents.reduce(...)` body of `findPotentialParent`: keep the
candidate with the smaller area, first encountered wins ties. -/
def smallerOf (smallest current : Shape ℚ) : Shape ℚ :=
  let smallestArea := smallest.width * smallest.height
  let currentArea := current.width * current.height
  if currentArea < smallestArea then current else smallest

/-- The filter predicate of `SnapEngine.findPotentialParent`: only other
frames that fully contain the shape. -/
def potentialParentPred (shape s : Shape ℚ) : Bool :=
  if s.id = shape.id then false
  else if s.type ≠ ShapeType.frame then false
  else fullyContains s shape

/-- `SnapEngine.findPotentialParent(shape, allShapes)`: filter to containing
frames, `null` if none, otherwise reduce to the smallest-area one. -/
def findPotentialParent (shape : Shape ℚ) (allShapes : List (Shape ℚ)) :
    Option (Shape ℚ) :=
  let potentialParents := allShapes.filter (potentialParentPred shape)
  match potentialParents with
  | [] => none
  | first :: rest => some (rest.foldl smallerOf first)

/-- Body of `findBestParent`'s `for (const [id, candidate] of shapes)` loop.
The source tracks `smallestArea` starting at `Infinity`; here the accumulator
`none` plays the role of `smallestArea = Infinity` (any finite candidate area
is below it), and a `some best` accumulator carries `smallestArea =
best.width * best.height`, exactly as the source keeps them in sync. -/
def findBestParentStep (shape : Shape ℚ) (excludeIds : List String)
    (best : Option (Shape ℚ)) (entry : String × Shape ℚ) : Option (Shape ℚ) :=
  let id := entry.1
  let candidate := entry.2
  if id = shape.id ∨ id ∈ excludeIds then best
  else if candidate.type ≠ ShapeType.frame then best
  else if fullyContains candidate shape then
    match best with
    | none => some candidate
    | some b =>
      if candidate.width * candidate.height < b.width * b.height then some candidate
      else best
  else best

/-- `HierarchyManager.findBestParent(shape, shapes, excludeIds)`: smallest
containing frame, first encountered on area ties, iterating the map in
insertion order. -/
def findBestParent (shape : Shape ℚ) (shapes : List (String × Shape ℚ))
    (excludeIds : List String) : Option (Shape ℚ) :=
  shapes.foldl (findBestParentStep shape excludeIds) none

/-- `HierarchyManager.rotatePoint(px, py, cx, cy, angleDeg)`: rotate `(px,py)`
about `(cx,cy)` by `angleDeg` degrees. -/
noncomputable def rotatePoint (px py cx cy angleDeg : ℝ) : ℝ × ℝ :=
  let angleRad := angleDeg * Real.pi / 180
  let c := Real.cos angleRad
  let s := Real.sin angleRad
  let dx := px - cx
  let dy := py - cy
  (cx + dx * c - dy * s, cy + dx * s + dy * c)

/-- `HierarchyManager.getShapeCenter(shape)`. -/
noncomputable def getShapeCenter (shape : Shape ℝ) : ℝ × ℝ :=
  (shape.x + shape.width / 2, shape.y + shape.height / 2)

/-- One entry of the update list returned by the rotation cascade:
`{id, x, y, rotation}`. -/
structure RotationUpdate where
  id : String
  x : ℝ
  y : ℝ
  rotation : ℝ

/-- `HierarchyManager.getDescendantRotationUpdates(parentId, deltaRotation,
parentCenterX, parentCenterY, shapes)`: rotate every descendant's center
about the parent's center, derive the new top-left, and increment the
descendant's own rotation by the delta. -/
noncomputable def getDescendantRotationUpdates (parentId : String)
    (deltaRotation parentCenterX parentCenterY : ℝ)
    (shapes : List (String × Shape ℝ)) : List RotationUpdate :=
  (getDescendants parentId shapes).map (fun descendant =>
    let childCenter := getShapeCenter descendant
    let rotatedCenter :=
      rotatePoint childCenter.1 childCenter.2 parentCenterX parentCenterY deltaRotation
    { id := descendant.id,
      x := rotatedCenter.1 - descendant.width / 2,
      y := rotatedCenter.2 - descendant.height / 2,
      rotation := descendant.rotation + deltaRotation })

/-- The shape map of the spec's Scenario A: a frame at `(0,0,400,300)` with
one 50×50 child rect at `(10,10)`. -/
noncomputable def scenarioAShapes : List (String × Shape ℝ) :=
  [("frame", ⟨"frame", ShapeType.frame, 0, 0, 400, 300, none, ["child"], 0, none⟩),
   ("child", ⟨"child", ShapeType.rect, 10, 10, 50, 50, some "frame", [], 0, none⟩)]

/-- `CalculatedPosition {x, y, width?, height?}` of the layout engine. -/
structure CalculatedPosition where
  x : ℚ
  y : ℚ
  width : Option ℚ
  height : Option ℚ
  deriving DecidableEq

/-- `calculateFreeLayout(children)`: children keep their stored positions.
The result `Map` is embedded as the ordered list of `(childId, position)`
entries in the loop's insertion order. -/
def calculateFreeLayout (children : List (Shape ℚ)) :
    List (String × CalculatedPosition) :=
  children.map (fun child => (child.id, ⟨child.x, child.y, none, none⟩))

/-- The `for (const child of orderedChildren)` loop of `calculateFlexLayout`,
threading `currentMain`. -/
def flexPlace (flex : FlexLayoutSettings ℚ) (isRow : Bool)
    (crossAxisSize mainGap : ℚ) :
    ℚ → List (Shape ℚ) → List (String × CalculatedPosition)
  | _, [] => []
  | currentMain, child :: rest =>
    let childMainSize := if isRow then child.width else child.height
    let childCrossSize := if isRow then child.height else child.width
    let crossStretch : ℚ × Option ℚ :=
      match flex.alignItems with
      | FlexAlign.flexStart => (0, none)
      | FlexAlign.flexEnd => (crossAxisSize - childCrossSize, none)
      | FlexAlign.center => ((crossAxisSize - childCrossSize) / 2, none)
      | FlexAlign.stretch => (0, some crossAxisSize)
      | FlexAlign.baseline => (0, none)
    let crossPos := crossStretch.1
    let stretchSize := crossStretch.2
    let pos : CalculatedPosition :=
      if isRow then
        ⟨flex.padding.left + currentMain, flex.padding.top + crossPos, none, stretchSize⟩
      else
        ⟨flex.padding.left + crossPos, flex.padding.top + currentMain, stretchSize, none⟩
    (child.id, pos) ::
      flexPlace flex isRow crossAxisSize mainGap (currentMain + childMainSize + mainGap) rest

/-- `calculateFlexLayout(parent, children, flex)`. -/
def calculateFlexLayout (parent : Shape ℚ) (children : List (Shape ℚ))
    (flex : FlexLayoutSettings ℚ) : List (String × CalculatedPosition) :=
  if children.isEmpty then []
  else
    let availableWidth := parent.width - flex.padding.left - flex.padding.right
    let availableHeight := parent.height - flex.padding.top - flex.padding.bottom
    let isRow : Bool :=
      decide (flex.direction = FlexDirection.row ∨ flex.direction = FlexDirection.rowReverse)
    let isReverse : Bool :=
      decide (flex.direction = FlexDirection.rowReverse ∨
        flex.direction = FlexDirection.columnReverse)
    let n : ℚ := children.length
    let totalMainSize :=
      (children.map (fun c => if isRow then c.width else c.height)).sum + flex.gap * (n - 1)
    let mainAxisSize := if isRow then availableWidth else availableHeight
    let crossAxisSize := if isRow then availableHeight else availableWidth
    let startGap : ℚ × ℚ :=
      match flex.justifyContent with
      | FlexJustify.flexStart => (0, flex.gap)
      | FlexJustify.flexEnd => (mainAxisSize - totalMainSize, flex.gap)
      | FlexJustify.center => ((mainAxisSize - totalMainSize) / 2, flex.gap)
      | FlexJustify.spaceBetween =>
        (0,
         if 1 < children.length then
           (mainAxisSize - totalMainSize + flex.gap * (n - 1)) / (n - 1)
         else 0)
      | FlexJustify.spaceAround =>
        let aroundSpace := (mainAxisSize - totalMainSize + flex.gap * (n - 1)) / n
        (aroundSpace / 2, aroundSpace)
      | FlexJustify.spaceEvenly =>
        let evenSpace := (mainAxisSize - totalMainSize + flex.gap * (n - 1)) / (n + 1)
        (evenSpace, evenSpace)
    let mainStart := startGap.1
    let mainGap := startGap.2
    let orderedChildren := if isReverse then children.reverse else children
    flexPlace flex isRow crossAxisSize mainGap mainStart orderedChildren

/-- The per-child body of `calculateGridLayout`'s indexed loop: map the
traversal index to a `(row, col)` cell by `autoFlow`, keep the original
position when the cell is out of the declared bounds, otherwise center the
child in its cell. -/
def gridEntry (grid : GridLayoutSettings ℚ) (cellWidth cellHeight : ℚ) (i : ℕ)
    (child : Shape ℚ) : String × CalculatedPosition :=
  let rc : ℕ × ℕ :=
    if grid.autoFlow = GridAutoFlow.column then (i % grid.rows, i / grid.rows)
    else (i / grid.columns, i % grid.columns)
  let row := rc.1
  let col := rc.2
  if grid.columns ≤ col ∨ grid.rows ≤ row then
    (child.id, ⟨child.x, child.y, none, none⟩)
  else
    let cellX := grid.padding.left + (col : ℚ) * (cellWidth + grid.columnGap)
    let cellY := grid.padding.top + (row : ℚ) * (cellHeight + grid.rowGap)
    (child.id,
     ⟨cellX + (cellWidth - child.width) / 2, cellY + (cellHeight - child.height) / 2,
      none, none⟩)

/-- The `for (let i = 0; i < children.length; i++)` loop of
`calculateGridLayout`. -/
def gridPlace (grid : GridLayoutSettings ℚ) (cellWidth cellHeight : ℚ) :
    ℕ → List (Shape ℚ) → List (String × CalculatedPosition)
  | _, [] => []
  | i, child :: rest =>
    gridEntry grid cellWidth cellHeight i child ::
      gridPlace grid cellWidth cellHeight (i + 1) rest

/-- `calculateGridLayout(parent, children, grid)`. -/
def calculateGridLayout (parent : Shape ℚ) (children : List (Shape ℚ))
    (grid : GridLayoutSettings ℚ) : List (String × CalculatedPosition) :=
  if children.isEmpty then []
  else
    let availableWidth := parent.width - grid.padding.left - grid.padding.right
    let availableHeight := parent.height - grid.padding.top - grid.padding.bottom
    let cellWidth :=
      (availableWidth - grid.columnGap * ((grid.columns : ℚ) - 1)) / (grid.columns : ℚ)
    let cellHeight :=
      (availableHeight - grid.rowGap * ((grid.rows : ℚ) - 1)) / (grid.rows : ℚ)
    gridPlace grid cellWidth cellHeight 0 children

/-- `calculateChildPositions(parent, children)`: dispatch on the parent's
layout mode, defaulting to free positioning. -/
def calculateChildPositions (parent : Shape ℚ) (children : List (Shape ℚ)) :
    List (String × CalculatedPosition) :=
  match parent.layout with
  | none => calculateFreeLayout children
  | some layout =>
    if layout.mode = LayoutMode.free then calculateFreeLayout children
    else
      match layout.mode, layout.flex, layout.grid with
      | LayoutMode.flex, some flex, _ => calculateFlexLayout parent children flex
      | LayoutMode.grid, _, some grid => calculateGridLayout parent children grid
      | _, _, _ => calculateFreeLayout children

/-- A row / flex-start flex configuration: gap 5, padding
`{top 1, right 3, bottom 4, left 2}`. -/
def flexDemoFlex : FlexLayoutSettings ℚ :=
  ⟨FlexDirection.row, FlexJustify.flexStart, FlexAlign.flexStart, FlexWrap.nowrap,
   5, ⟨1, 3, 4, 2⟩⟩

/-- Layout settings selecting [flexDemoFlex]. -/
def flexDemoLS : LayoutSettings ℚ := ⟨LayoutMode.flex, some flexDemoFlex, none⟩

/-- A 200×100 flex frame. -/
def flexDemoParent : Shape ℚ :=
  ⟨"p", ShapeType.frame, 0, 0, 200, 100, none, ["a", "b"], 0, some flexDemoLS⟩

/-- First flex child, width 30. -/
def flexDemoChildA : Shape ℚ :=
  ⟨"a", ShapeType.rect, 0, 0, 30, 20, some "p", [], 0, none⟩

/-- Second flex child, width 40. -/
def flexDemoChildB : Shape ℚ :=
  ⟨"b", ShapeType.rect, 0, 0, 40, 20, some "p", [], 0, none⟩

end VibeDesign

namespace VibeDesign

/-- C1: for every point `p` and matrix `m` with `|det m| > 1e-10`,
`worldToLocal (localToWorld p m) m = p` (exactly, in the rational model;
floating epsilon is not needed because the arithmetic is exact). -/
theorem claim1_world_local_roundtrip (p : Point2D) (m : Matrix2D)
    (hdet : 1e-10 < |m.a * m.d - m.b * m.c|) :
    worldToLocal (localToWorld p m) m = p := by
  have hne : ¬ |m.a * m.d - m.b * m.c| < 1e-10 := not_lt.mpr (le_of_lt hdet)
  have hdet0 : m.a * m.d - m.b * m.c ≠ 0 := by
    intro h
    rw [h] at hdet
    simp at hdet
    norm_num at hdet
  cases p with
  | mk px py =>
    cases m with
    | mk a b c d tx ty =>
      simp only [worldToLocal, localToWorld, transformPoint, invertMatrix] at *
      rw [if_neg hne]
      simp only [Point2D.mk.injEq]
      constructor
      · field_simp
        ring
      · field_simp
        ring

/-- Witness for C1 at `p = (3, 4)`, `m = identity` (determinant `1`). -/
theorem claim1_world_local_roundtrip_witness :
    (1e-10 : ℚ) < |(1 : ℚ) * 1 - 0 * 0| ∧
      worldToLocal (localToWorld ⟨3, 4⟩ ⟨1, 0, 0, 1, 0, 0⟩) ⟨1, 0, 0, 1, 0, 0⟩ = ⟨3, 4⟩ :=
  ⟨by norm_num,
   claim1_world_local_roundtrip ⟨3, 4⟩ ⟨1, 0, 0, 1, 0, 0⟩ (by norm_num)⟩

/-- C6: whenever `|det m| < 1e-10`, `invertMatrix m` is the identity matrix.
Totality (the function never throws) is intrinsic to the Lean definition. -/
theorem claim6_invert_degenerate (m : Matrix2D)
    (hdet : |m.a * m.d - m.b * m.c| < 1e-10) :
    invertMatrix m = identityMatrix := by
  simp only [invertMatrix]
  rw [if_pos hdet]

/-- Witness for C6 at the zero matrix (determinant `0`). -/
theorem claim6_invert_degenerate_witness :
    |(0 : ℚ) * 0 - 0 * 0| < 1e-10 ∧ invertMatrix ⟨0, 0, 0, 0, 0, 0⟩ = identityMatrix :=
  ⟨by norm_num, claim6_invert_degenerate ⟨0, 0, 0, 0, 0, 0⟩ (by norm_num)⟩

/-- Helper: the four-edge containment test, propositionally. -/
theorem fullyContains_iff (outer inner : Shape ℚ) :
    fullyContains outer inner = true ↔
      inner.x ≥ outer.x ∧ inner.y ≥ outer.y ∧
      inner.x + inner.width ≤ outer.x + outer.width ∧
      inner.y + inner.height ≤ outer.y + outer.height := by
  simp [fullyContains, and_assoc]

/-- C2: `canNest` is true exactly when the ids differ, both shapes exist,
the parent is a frame, the child is not an ancestor of the parent, and the
child's bounding box is contained in the parent's on all four edges. -/
theorem claim2_canNest_spec (childId parentId : String)
    (shapes : List (String × Shape ℚ)) :
    canNest childId parentId shapes = true ↔
      childId ≠ parentId ∧
      ∃ child parent,
        lookupShape shapes childId = some child ∧
        lookupShape shapes parentId = some parent ∧
        parent.type = ShapeType.frame ∧
        (∀ a ∈ getAncestors parentId shapes, a.id ≠ childId) ∧
        child.x ≥ parent.x ∧ child.y ≥ parent.y ∧
        child.x + child.width ≤ parent.x + parent.width ∧
        child.y + child.height ≤ parent.y + parent.height := by
  by_cases hcp : childId = parentId
  · simp [canNest, hcp]
  · cases hc : lookupShape shapes childId with
    | none => simp [canNest, hcp, hc]
    | some child =>
      cases hp : lookupShape shapes parentId with
      | none => simp [canNest, hcp, hc, hp]
      | some parent =>
        simp only [canNest, hc, hp, ne_eq, ite_not]
        rw [if_neg hcp]
        by_cases hframe : parent.type = ShapeType.frame
        · by_cases hanc :
              ((getAncestors parentId shapes).any fun a => a.id == childId) = true
          · apply iff_of_false
            · simp [hframe, hanc]
            · rw [List.any_eq_true] at hanc
              obtain ⟨a, ha, haid⟩ := hanc
              rw [beq_iff_eq] at haid
              rintro ⟨-, c, p, hc', hp', -, hall, -⟩
              injection hc' with e1
              subst e1
              exact hall a ha haid
          · rw [if_pos hframe, if_neg hanc, fullyContains_iff]
            rw [List.any_eq_true] at hanc
            push_neg at hanc
            constructor
            · rintro ⟨h1, h2, h3, h4⟩
              refine ⟨hcp, child, parent, rfl, rfl, hframe, ?_, h1, h2, h3, h4⟩
              intro a ha
              have := hanc a ha
              simpa using this
            · rintro ⟨-, c, p, hc', hp', -, -, h1, h2, h3, h4⟩
              injection hc' with e1
              injection hp' with e2
              subst e1
              subst e2
              exact ⟨h1, h2, h3, h4⟩
        · apply iff_of_false
          · simp [hframe]
          · rintro ⟨-, c, p, hc', hp', hfr, -⟩
            injection hp' with e2
            subst e2
            exact hframe hfr

/-- Helper for C9: one `findBestParent` loop iteration on an entry `(s.id, s)`
with no exclusions behaves as filter-then-smaller-of. -/
theorem findBestParentStep_eq (shape s : Shape ℚ) (best : Option (Shape ℚ)) :
    findBestParentStep shape [] best (s.id, s) =
      if potentialParentPred shape s then
        (match best with
         | none => some s
         | some b => some (smallerOf b s))
      else best := by
  unfold findBestParentStep potentialParentPred smallerOf
  by_cases h1 : s.id = shape.id
  · simp [h1]
  · by_cases h2 : s.type = ShapeType.frame
    · by_cases h3 : fullyContains s shape
      · cases best with
        | none => simp [h1, h2, h3]
        | some b =>
          by_cases h4 : s.width * s.height < b.width * b.height
          · simp [h1, h2, h3, h4]
          · simp [h1, h2, h3, h4]
      · cases best <;> simp [h1, h2, h3]
    · cases best <;> simp [h1, h2]

/-- Helper for C9: folding the `findBestParent` loop from a `some`
accumulator reduces to the `findPotentialParent` area-minimising reduce. -/
theorem findBestParent_foldl_some (shape : Shape ℚ) (l : List (Shape ℚ)) :
    ∀ b : Shape ℚ,
      List.foldl (findBestParentStep shape []) (some b) (l.map fun s => (s.id, s)) =
        some (List.foldl smallerOf b (l.filter (potentialParentPred shape))) := by
  induction l with
  | nil => intro b; simp
  | cons s t ih =>
    intro b
    simp only [List.map_cons, List.foldl_cons, List.filter_cons]
    rw [findBestParentStep_eq]
    by_cases hp : potentialParentPred shape s
    · simp only [hp, if_true, List.foldl_cons]
      exact ih (smallerOf b s)
    · simp only [hp, if_false, Bool.false_eq_true]
      exact ih b

/-- Helper for C9: folding the `findBestParent` loop from the empty
accumulator. -/
theorem findBestParent_foldl_none (shape : Shape ℚ) (l : List (Shape ℚ)) :
    List.foldl (findBestParentStep shape []) none (l.map fun s => (s.id, s)) =
      match l.filter (potentialParentPred shape) with
      | [] => none
      | first :: rest => some (List.foldl smallerOf first rest) := by
  induction l with
  | nil => simp
  | cons s t ih =>
    simp only [List.map_cons, List.foldl_cons, List.filter_cons]
    rw [findBestParentStep_eq]
    by_cases hp : potentialParentPred shape s
    · simp only [hp, if_true]
      exact findBestParent_foldl_some shape t s
    · simp only [hp, if_false, Bool.false_eq_true]
      exact ih

/-- C9: `SnapEngine.findPotentialParent` and
`HierarchyManager.findBestParent` (with an empty exclusion set) agree on
every shape and every candidate list presented in the same order: both pick
the smallest-area containing frame, first encountered on ties. -/
theorem claim9_findPotentialParent_eq_findBestParent (shape : Shape ℚ)
    (allShapes : List (Shape ℚ)) :
    findPotentialParent shape allShapes =
      findBestParent shape (allShapes.map fun s => (s.id, s)) [] := by
  unfold findPotentialParent findBestParent
  rw [findBestParent_foldl_none]

/-- C3: every entry of `getDescendantRotationUpdates` places the descendant
so that its new top-left is the rotation of its old center about the parent
center minus half its size, and adds the delta to its rotation; in
particular Scenario A (frame `(0,0,400,300)`, child `(10,10,50,50)`,
rotate 90°) moves the child's top-left to `(290, -40)` (center `(35,35)`
rotated about `(200,150)` to `(315,-15)`) with rotation `90`. -/
theorem claim3_rotation_cascade :
    (∀ (parentId : String) (deltaRotation parentCenterX parentCenterY : ℝ)
        (shapes : List (String × Shape ℝ)) (i : ℕ),
        (getDescendantRotationUpdates parentId deltaRotation parentCenterX parentCenterY
            shapes)[i]? =
          ((getDescendants parentId shapes)[i]?).map (fun d =>
            { id := d.id
              x := (rotatePoint (d.x + d.width / 2) (d.y + d.height / 2)
                  parentCenterX parentCenterY deltaRotation).1 - d.width / 2
              y := (rotatePoint (d.x + d.width / 2) (d.y + d.height / 2)
                  parentCenterX parentCenterY deltaRotation).2 - d.height / 2
              rotation := d.rotation + deltaRotation })) ∧
      getDescendantRotationUpdates "frame" 90 200 150 scenarioAShapes =
        [⟨"child", 290, -40, 90⟩] := by
  constructor
  · intro parentId deltaRotation parentCenterX parentCenterY shapes i
    simp [getDescendantRotationUpdates, getShapeCenter, List.getElem?_map]
  · have hlist : getDescendants "frame" scenarioAShapes =
        [⟨"child", ShapeType.rect, 10, 10, 50, 50, some "frame", [], 0, none⟩] := by
      rfl
    rw [getDescendantRotationUpdates, hlist]
    have hang : (90 : ℝ) * Real.pi / 180 = Real.pi / 2 := by ring
    simp only [List.map_cons, List.map_nil, getShapeCenter, rotatePoint, hang,
      Real.cos_pi_div_two, Real.sin_pi_div_two]
    norm_num

/-- Helper for C4: the main-axis position of the `k`-th entry of the flex
placement loop (row direction) is the accumulator plus the widths of the
preceding children plus `k` gaps. -/
theorem flexPlace_x (flex : FlexLayoutSettings ℚ) (cas g : ℚ) :
    ∀ (l : List (Shape ℚ)) (cm : ℚ) (k : ℕ) (child : Shape ℚ),
      l[k]? = some child →
      ((flexPlace flex true cas g cm l)[k]?).map (fun e => (e.1, e.2.x)) =
        some (child.id,
          flex.padding.left + cm + ((l.take k).map Shape.width).sum + g * k) := by
  intro l
  induction l with
  | nil => intro cm k child h; simp at h
  | cons c t ih =>
    intro cm k child h
    cases k with
    | zero =>
      simp only [List.getElem?_cons_zero, Option.some.injEq] at h
      subst h
      simp only [flexPlace, List.getElem?_cons_zero, Option.map_some', if_true,
        List.take_zero, List.map_nil, List.sum_nil, Nat.cast_zero]
      norm_num
    | succ k =>
      simp only [List.getElem?_cons_succ] at h
      simp only [flexPlace, List.getElem?_cons_succ, if_true]
      rw [ih (cm + c.width + g) k child h]
      simp only [Option.some.injEq, Prod.mk.injEq, true_and, List.take_succ_cons,
        List.map_cons, List.sum_cons]
      push_cast
      ring

/-- Helper for C4: `calculateChildPositions` dispatches to
`calculateFlexLayout` when the parent's layout is flex with settings. -/
theorem calculateChildPositions_eq_flex (parent : Shape ℚ)
    (children : List (Shape ℚ)) (ls : LayoutSettings ℚ) (flex : FlexLayoutSettings ℚ)
    (hlay : parent.layout = some ls) (hmode : ls.mode = LayoutMode.flex)
    (hflex : ls.flex = some flex) :
    calculateChildPositions parent children = calculateFlexLayout parent children flex := by
  unfold calculateChildPositions
  rw [hlay]
  simp [hmode, hflex]

/-- Helper for C4: for `direction = row`, `justifyContent = flex-start` the
flex layout is the placement loop started at 0 with the configured gap. -/
theorem calculateFlexLayout_row_flexStart (parent : Shape ℚ)
    (children : List (Shape ℚ)) (flex : FlexLayoutSettings ℚ)
    (hdir : flex.direction = FlexDirection.row)
    (hjust : flex.justifyContent = FlexJustify.flexStart)
    (hne : children ≠ []) :
    calculateFlexLayout parent children flex =
      flexPlace flex true (parent.height - flex.padding.top - flex.padding.bottom)
        flex.gap 0 children := by
  unfold calculateFlexLayout
  rw [if_neg (by simpa [List.isEmpty_iff] using hne)]
  simp [hdir, hjust]

/-- Helper for C4 and shared arithmetic: prefix sums of a list of
non-negative rationals are monotone in the prefix length. -/
theorem sum_take_mono (ws : List ℚ) (h0 : ∀ w ∈ ws, 0 ≤ w) {i j : ℕ}
    (hij : i ≤ j) : (ws.take i).sum ≤ (ws.take j).sum := by
  have hsplit : ws.take j = ws.take i ++ (ws.drop i).take (j - i) := by
    rw [← List.take_add]
    congr 1
    omega
  rw [hsplit, List.sum_append]
  have hnn : 0 ≤ ((ws.drop i).take (j - i)).sum := by
    apply List.sum_nonneg
    intro w hw
    exact h0 w (List.drop_subset _ _ (List.take_subset _ _ hw))
  linarith

/-- Helper for C4: extending a prefix sum by the element at its end. -/
theorem sum_take_succ_eq (ws : List ℚ) (k : ℕ) (w : ℚ) (h : ws[k]? = some w) :
    (ws.take (k + 1)).sum = (ws.take k).sum + w := by
  rw [List.take_succ, List.sum_append, h]
  simp

/-- C4: for a flex container in `row` / `flex-start` mode,
`calculateChildPositions` places child `i` at main-axis position
`padding.left + Σ width(0..i-1) + gap·i`; the total placed extent (last
child's right edge minus first child's left edge) is `Σ width + gap·(n-1)`;
and (for non-negative gap and positive widths) the children's main-axis
intervals are pairwise disjoint. -/
theorem claim4_flex_row_placement (parent : Shape ℚ) (children : List (Shape ℚ))
    (ls : LayoutSettings ℚ) (flex : FlexLayoutSettings ℚ)
    (hlay : parent.layout = some ls) (hmode : ls.mode = LayoutMode.flex)
    (hflex : ls.flex = some flex)
    (hdir : flex.direction = FlexDirection.row)
    (hjust : flex.justifyContent = FlexJustify.flexStart)
    (hgap : 0 ≤ flex.gap)
    (hw : ∀ c ∈ children, 0 < c.width) :
    (∀ (i : ℕ) (child : Shape ℚ), children[i]? = some child →
      ((calculateChildPositions parent children)[i]?).map (fun e => (e.1, e.2.x)) =
        some (child.id,
          flex.padding.left + ((children.take i).map Shape.width).sum +
            flex.gap * i)) ∧
    (∀ (clast : Shape ℚ) (xfirst xlast : ℚ), children[children.length - 1]? = some clast →
      ((calculateChildPositions parent children)[0]?).map (fun e => e.2.x) =
        some xfirst →
      ((calculateChildPositions parent children)[children.length - 1]?).map
        (fun e => e.2.x) = some xlast →
      xlast + clast.width - xfirst =
        (children.map Shape.width).sum + flex.gap * ((children.length : ℚ) - 1)) ∧
    (∀ (i j : ℕ) (ci cj : Shape ℚ) (xi xj : ℚ), i < j →
      children[i]? = some ci → children[j]? = some cj →
      ((calculateChildPositions parent children)[i]?).map (fun e => e.2.x) = some xi →
      ((calculateChildPositions parent children)[j]?).map (fun e => e.2.x) = some xj →
      xi + ci.width ≤ xj) := by
  have key : ∀ i child, children[i]? = some child →
      ((calculateChildPositions parent children)[i]?).map (fun e => (e.1, e.2.x)) =
        some (child.id,
          flex.padding.left + ((children.take i).map Shape.width).sum +
            flex.gap * i) := by
    intro i child h
    have hne : children ≠ [] := by
      intro e
      subst e
      simp at h
    rw [calculateChildPositions_eq_flex parent children ls flex hlay hmode hflex,
      calculateFlexLayout_row_flexStart parent children flex hdir hjust hne]
    have hx := flexPlace_x flex
      (parent.height - flex.padding.top - flex.padding.bottom) flex.gap children 0 i
      child h
    simpa using hx
  have getx : ∀ i child xi, children[i]? = some child →
      ((calculateChildPositions parent children)[i]?).map (fun e => e.2.x) = some xi →
      xi = flex.padding.left + ((children.take i).map Shape.width).sum +
        flex.gap * i := by
    intro i child xi h hx
    have k := key i child h
    rcases Option.map_eq_some'.mp k with ⟨e, he, hpe⟩
    rw [he, Option.map_some', Option.some.injEq] at hx
    have hxe : e.2.x = flex.padding.left + ((children.take i).map Shape.width).sum +
        flex.gap * i := congrArg Prod.snd hpe
    rw [← hx, hxe]
  refine ⟨key, ?_, ?_⟩
  · intro clast xfirst xlast hl h0 hl'
    have hlen : 0 < children.length := by
      by_contra hz
      rw [List.getElem?_eq_none (by omega)] at hl
      cases hl
    obtain ⟨c0, hc0⟩ : ∃ c0, children[0]? = some c0 := by
      cases children with
      | nil => simp at hlen
      | cons c t => exact ⟨c, by simp⟩
    have e0 := getx 0 c0 xfirst hc0 h0
    have el := getx (children.length - 1) clast xlast hl hl'
    have hws : (children.map Shape.width)[children.length - 1]? = some clast.width := by
      rw [List.getElem?_map, hl]
      rfl
    have h1 := sum_take_succ_eq (children.map Shape.width) (children.length - 1)
      clast.width hws
    rw [show children.length - 1 + 1 = children.length by omega] at h1
    have h2 : (children.map Shape.width).take children.length =
        children.map Shape.width := by
      conv_lhs =>
        rw [show children.length = (children.map Shape.width).length by
          rw [List.length_map]]
      exact List.take_length _
    rw [h2] at h1
    have hcast : ((children.length - 1 : ℕ) : ℚ) = (children.length : ℚ) - 1 := by
      have h3 : (1 : ℕ) ≤ children.length := hlen
      push_cast [Nat.cast_sub h3]
      ring
    rw [List.map_take] at e0 el
    rw [hcast] at el
    simp only [List.take_zero, List.sum_nil, Nat.cast_zero, mul_zero, add_zero] at e0
    rw [e0, el]
    linarith [h1]
  · intro i j ci cj xi xj hij hi hj hxi hxj
    have ei := getx i ci xi hi hxi
    have ej := getx j cj xj hj hxj
    have hwsi : (children.map Shape.width)[i]? = some ci.width := by
      rw [List.getElem?_map, hi]
      rfl
    have hsucc := sum_take_succ_eq (children.map Shape.width) i ci.width hwsi
    have hmono : ((children.map Shape.width).take (i + 1)).sum ≤
        ((children.map Shape.width).take j).sum := by
      apply sum_take_mono
      · intro w hwmem
        rcases List.mem_map.mp hwmem with ⟨c, hc, rfl⟩
        exact le_of_lt (hw c hc)
      · omega
    have hgle : flex.gap * (i : ℚ) ≤ flex.gap * (j : ℚ) := by
      apply mul_le_mul_of_nonneg_left _ hgap
      exact_mod_cast le_of_lt hij
    rw [List.map_take] at ei ej
    linarith

/-- Witness for C4: in the demo row/flex-start frame (padding.left 2, gap 5,
child widths 30 and 40), the second child is placed at main-axis position
`2 + 30 + 5·1 = 37`. -/
theorem claim4_flex_row_placement_witness :
    flexDemoParent.layout = some flexDemoLS ∧
      flexDemoLS.mode = LayoutMode.flex ∧
      flexDemoLS.flex = some flexDemoFlex ∧
      flexDemoFlex.direction = FlexDirection.row ∧
      flexDemoFlex.justifyContent = FlexJustify.flexStart ∧
      (0 : ℚ) ≤ flexDemoFlex.gap ∧
      (∀ c ∈ [flexDemoChildA, flexDemoChildB], 0 < c.width) ∧
      ((calculateChildPositions flexDemoParent
          [flexDemoChildA, flexDemoChildB])[1]?).map (fun e => (e.1, e.2.x)) =
        some ("b", 37) := by
  have hwpos : ∀ c ∈ [flexDemoChildA, flexDemoChildB], (0 : ℚ) < c.width := by
    intro c hc
    simp only [List.mem_cons, List.mem_singleton, List.not_mem_nil, or_false] at hc
    rcases hc with rfl | rfl <;> norm_num [flexDemoChildA, flexDemoChildB]
  refine ⟨rfl, rfl, rfl, rfl, rfl, by norm_num [flexDemoFlex], hwpos, ?_⟩
  have h := (claim4_flex_row_placement flexDemoParent
    [flexDemoChildA, flexDemoChildB] flexDemoLS flexDemoFlex rfl rfl rfl rfl rfl
    (by norm_num [flexDemoFlex]) hwpos).1 1 flexDemoChildB (by simp)
  rw [h]
  norm_num [flexDemoFlex, flexDemoChildA, flexDemoChildB]

/-- Helper for C5: the grid loop indexes entries by traversal position. -/
theorem gridPlace_getElem? (grid : GridLayoutSettings ℚ) (cw ch : ℚ)
    (l : List (Shape ℚ)) :
    ∀ (start k : ℕ),
      (gridPlace grid cw ch start l)[k]? =
        (l[k]?).map (gridEntry grid cw ch (start + k)) := by
  induction l with
  | nil => intro start k; simp [gridPlace]
  | cons c t ih =>
    intro start k
    cases k with
    | zero => simp [gridPlace]
    | succ k =>
      simp only [gridPlace, List.getElem?_cons_succ]
      rw [show start + (k + 1) = start + 1 + k by omega]
      exact ih (start + 1) k

/-- C5: a grid child whose `(row, col)` cell — derived from its traversal
index by `autoFlow` — lies within the declared bounds is centered in its
cell (`cellOrigin + (cellSize - childSize)/2` per axis); a child whose cell
falls outside the bounds keeps its stored `(x, y)` unchanged. -/
theorem claim5_grid_placement (parent : Shape ℚ) (children : List (Shape ℚ))
    (grid : GridLayoutSettings ℚ) (i : ℕ) (child : Shape ℚ) (row col : ℕ)
    (h : children[i]? = some child)
    (hrc : (row, col) =
      if grid.autoFlow = GridAutoFlow.column then (i % grid.rows, i / grid.rows)
      else (i / grid.columns, i % grid.columns)) :
    (col < grid.columns ∧ row < grid.rows →
      (calculateGridLayout parent children grid)[i]? =
        some (child.id,
          ⟨grid.padding.left +
              (col : ℚ) *
                ((parent.width - grid.padding.left - grid.padding.right -
                    grid.columnGap * ((grid.columns : ℚ) - 1)) / (grid.columns : ℚ) +
                  grid.columnGap) +
              ((parent.width - grid.padding.left - grid.padding.right -
                  grid.columnGap * ((grid.columns : ℚ) - 1)) / (grid.columns : ℚ) -
                child.width) / 2,
           grid.padding.top +
              (row : ℚ) *
                ((parent.height - grid.padding.top - grid.padding.bottom -
                    grid.rowGap * ((grid.rows : ℚ) - 1)) / (grid.rows : ℚ) +
                  grid.rowGap) +
              ((parent.height - grid.padding.top - grid.padding.bottom -
                  grid.rowGap * ((grid.rows : ℚ) - 1)) / (grid.rows : ℚ) -
                child.height) / 2,
           none, none⟩)) ∧
    (¬(col < grid.columns ∧ row < grid.rows) →
      (calculateGridLayout parent children grid)[i]? =
        some (child.id, ⟨child.x, child.y, none, none⟩)) := by
  have hlt : i < children.length := by
    by_contra hge
    rw [List.getElem?_eq_none (by omega)] at h
    cases h
  have hne : children.isEmpty = false := by
    cases children
    · simp at hlt
    · rfl
  have hmain : (calculateGridLayout parent children grid)[i]? =
      some (gridEntry grid
        ((parent.width - grid.padding.left - grid.padding.right -
            grid.columnGap * ((grid.columns : ℚ) - 1)) / (grid.columns : ℚ))
        ((parent.height - grid.padding.top - grid.padding.bottom -
            grid.rowGap * ((grid.rows : ℚ) - 1)) / (grid.rows : ℚ)) i child) := by
    simp only [calculateGridLayout, hne, Bool.false_eq_true, if_false]
    rw [gridPlace_getElem?]
    simp only [Nat.zero_add, h, Option.map_some']
  by_cases haf : grid.autoFlow = GridAutoFlow.column
  · rw [if_pos haf, Prod.mk.injEq] at hrc
    obtain ⟨hr, hc⟩ := hrc
    subst hr
    subst hc
    constructor
    · rintro ⟨hcol, hrow⟩
      rw [hmain]
      simp only [gridEntry, haf, if_true]
      rw [if_neg (by omega)]
    · intro hout
      rw [hmain]
      simp only [gridEntry, haf, if_true]
      rw [if_pos (by omega)]
  · rw [if_neg haf, Prod.mk.injEq] at hrc
    obtain ⟨hr, hc⟩ := hrc
    subst hr
    subst hc
    constructor
    · rintro ⟨hcol, hrow⟩
      rw [hmain]
      simp only [gridEntry, haf, if_false]
      rw [if_neg (by omega)]
    · intro hout
      rw [hmain]
      simp only [gridEntry, haf, if_false]
      rw [if_pos (by omega)]

/-- The 100×100 frame of the grid-centering scenario. -/
def gridDemoParent : Shape ℚ :=
  ⟨"p", ShapeType.frame, 0, 0, 100, 100, none, ["a", "b"], 0, none⟩

/-- First 30×30 grid child (stored position `(5, 6)`). -/
def gridDemoChildA : Shape ℚ :=
  ⟨"a", ShapeType.rect, 5, 6, 30, 30, some "p", [], 0, none⟩

/-- Second 30×30 grid child (stored position `(7, 8)`). -/
def gridDemoChildB : Shape ℚ :=
  ⟨"b", ShapeType.rect, 7, 8, 30, 30, some "p", [], 0, none⟩

/-- A 2×2 row-flow grid with no gaps and no padding. -/
def gridDemoSettings : GridLayoutSettings ℚ :=
  ⟨2, 2, 0, 0, GridAutoFlow.row, ⟨0, 0, 0, 0⟩⟩

/-- Witness for C5: in the 2×2 grid of 50×50 cells, the first 30×30 child is
centered at `(10, 10)` in cell `(0,0)`. -/
theorem claim5_grid_placement_witness :
    (([gridDemoChildA, gridDemoChildB] : List (Shape ℚ))[0]? = some gridDemoChildA) ∧
      (calculateGridLayout gridDemoParent [gridDemoChildA, gridDemoChildB]
          gridDemoSettings)[0]? = some ("a", ⟨10, 10, none, none⟩) := by
  refine ⟨rfl, ?_⟩
  have h := (claim5_grid_placement gridDemoParent [gridDemoChildA, gridDemoChildB]
    gridDemoSettings 0 gridDemoChildA 0 0 rfl (by decide)).1 (by decide)
  rw [h]
  norm_num [gridDemoSettings, gridDemoParent, gridDemoChildA]

/-- C7 (counterexample): the claim says the floor of 10 is enforced
"regardless of the enabled flag", but with the engine disabled `snapResize`
returns the requested width 5 unchanged, which is below 10. -/
theorem claim7_counterexample :
    ¬ (10 : ℚ) ≤ (snapResize ⟨8, false⟩ scenarioCShape "e" 0 0 5 5 []).width := by
  norm_num [snapResize]

/-- C7 (amended): whenever the engine is enabled, `snapResize` returns a
width and height of at least 10, regardless of the handle, the requested
values, or the other shapes. -/
theorem claim7_resize_floor (engine : SnapEngine) (shape : Shape ℚ) (handle : String)
    (newX newY newWidth newHeight : ℚ) (otherShapes : List (Shape ℚ))
    (hen : engine.enabled = true) :
    10 ≤ (snapResize engine shape handle newX newY newWidth newHeight otherShapes).width ∧
      10 ≤ (snapResize engine shape handle newX newY newWidth newHeight otherShapes).height := by
  simp only [snapResize, hen, Bool.true_eq_false, if_false]
  exact ⟨le_max_left _ _, le_max_left _ _⟩

/-- Witness for the amended C7: enabled engine, requested size 5×5,
resulting size is floored at 10. -/
theorem claim7_resize_floor_witness :
    (SnapEngine.mk 8 true).enabled = true ∧
      (10 ≤ (snapResize ⟨8, true⟩ scenarioCShape "e" 0 0 5 5 []).width ∧
        10 ≤ (snapResize ⟨8, true⟩ scenarioCShape "e" 0 0 5 5 []).height) :=
  ⟨rfl, claim7_resize_floor ⟨8, true⟩ scenarioCShape "e" 0 0 5 5 [] rfl⟩

/-- C8 (counterexample): a 40×40 shape dragged to `(198, 100)` has center
`218`, which is 118 away from the canvas center `100` — far outside the
threshold 8, so `snapShape` keeps `x = 198` and emits no guide, contradicting
the claimed snap to `x = 80`. -/
theorem claim8_counterexample :
    (snapShape ⟨8, true⟩ scenarioCShape 198 100 [] 200 600).snappedX ≠ 80 ∧
      (snapShape ⟨8, true⟩ scenarioCShape 198 100 [] 200 600).guides = [] := by
  norm_num [snapShape, scenarioCShape]

/-- C8 (amended): with threshold 8 and snapping enabled, a 40×40 shape
dragged to `(84, 100)` on a 200-wide canvas (center 100) snaps to
`x = 80` (centering the shape on the canvas center) and the result carries a
vertical canvas-center guide at position 100. -/
theorem claim8_canvas_center_snap :
    snapShape ⟨8, true⟩ scenarioCShape 84 100 [] 200 600 =
      ⟨80, 100, [⟨GuideOrientation.vertical, 100, 0, 600, "moving", "canvas"⟩]⟩ := by
  norm_num [snapShape, scenarioCShape]

/-- C10: when the engine's `enabled` flag is false, `snapShape` returns
exactly the input coordinates with no guides, and `snapResize` returns
exactly the input rectangle with no guides — in particular the width/height
floor of 10 is not applied on this path. -/
theorem claim10_disabled_identity (engine : SnapEngine) (movingShape : Shape ℚ)
    (newX newY : ℚ) (otherShapes : List (Shape ℚ)) (canvasWidth canvasHeight : ℚ)
    (shape : Shape ℚ) (handle : String) (rx ry rw rh : ℚ) (others : List (Shape ℚ))
    (hen : engine.enabled = false) :
    snapShape engine movingShape newX newY otherShapes canvasWidth canvasHeight =
        ⟨newX, newY, []⟩ ∧
      snapResize engine shape handle rx ry rw rh others = ⟨rx, ry, rw, rh, []⟩ := by
  constructor
  · simp only [snapShape, hen, if_true]
  · simp only [snapResize, hen, if_true]

/-- Witness for C10: disabled engine, requested resize 5×5 stays 5×5 and a
move to `(198, 100)` stays put. -/
theorem claim10_disabled_identity_witness :
    (SnapEngine.mk 8 false).enabled = false ∧
      (snapShape ⟨8, false⟩ scenarioCShape 198 100 [] 200 600 = ⟨198, 100, []⟩ ∧
        snapResize ⟨8, false⟩ scenarioCShape "e" 0 0 5 5 [] = ⟨0, 0, 5, 5, []⟩) :=
  ⟨rfl, claim10_disabled_identity ⟨8, false⟩ scenarioCShape 198 100 [] 200 600
    scenarioCShape "e" 0 0 5 5 [] rfl⟩

end VibeDesign
